import Mathlib

/-!
Shallow embedding of `src/fu-install-task.c` (fwupd install-task
requirement-validation pipeline), together with theorems settling the
frozen claims about its specification.

External collaborators (libxmlb queries, the version comparator
`fu_common_vercmp_full`, the parser `fu_common_version_parse_from_format`
and the keyring evaluator `fu_keyring_get_release_flags`) are modelled as
data already extracted from the metadata tree, or as injected functions in
a `FuEnv` record, exactly as the spec describes them as external
contracts.  Everything else is translated line by line from the C source.
-/

/-- Error domain tags, from the `FwupdError` enumeration of libfwupd
(`FWUPD_ERROR_*`).  Only a subset is produced by this file; the rest can
be produced by the injected keyring evaluator. -/
inductive FwupdErrorKind where
  | INTERNAL
  | VERSION_NEWER
  | VERSION_SAME
  | ALREADY_PENDING
  | AUTH_FAILED
  | READ
  | WRITE
  | INVALID_FILE
  | NOT_FOUND
  | NOTHING_TO_DO
  | NOT_SUPPORTED
  | SIGNATURE_INVALID
  deriving DecidableEq

/-- A GError carrying a fwupd error kind and a human-readable message. -/
structure FwupdError where
  kind : FwupdErrorKind
  message : String
  deriving DecidableEq

/-- Version-number formats, from `FwupdVersionFormat` of libfwupd.
`fu-install-task.c` treats only `UNKNOWN` and `PLAIN` specially. -/
inductive FwupdVersionFormat where
  | UNKNOWN
  | PLAIN
  | NUMBER
  | PAIR
  | TRIPLET
  | QUAD
  | BCD
  | INTEL_ME
  | INTEL_ME2
  deriving DecidableEq

/-- Trust bitset (`FwupdReleaseFlags`); the bit inspected by this file is
`FWUPD_TRUST_FLAG_PAYLOAD`. -/
structure FwupdReleaseFlags where
  metadata : Bool
  payload : Bool
  deriving DecidableEq

/-- `FWUPD_TRUST_FLAG_NONE`: no trust bits set. -/
def FWUPD_TRUST_FLAG_NONE : FwupdReleaseFlags :=
  { metadata := false, payload := false }

/-- Install-flag bitset (`FwupdInstallFlags`); the five bits consulted by
`fu_install_task_check_requirements`. -/
structure FwupdInstallFlags where
  offline : Bool
  allow_reinstall : Bool
  allow_older : Bool
  force : Bool
  allow_branch_switch : Bool
  deriving DecidableEq

/-- `FWUPD_INSTALL_FLAG_NONE`. -/
def FWUPD_INSTALL_FLAG_NONE : FwupdInstallFlags :=
  { offline := false, allow_reinstall := false, allow_older := false,
    force := false, allow_branch_switch := false }

/-- One node returned by the `requires/*` query on a component: its
element name and its text (NULL text modelled as `none`). -/
structure XbRequire where
  element : String
  text : Option String
  deriving DecidableEq

/-- One `releases/release` node: its `version` attribute (absent attribute
modelled as `none`). -/
structure XbRelease where
  version : Option String
  deriving DecidableEq

/-- The component metadata tree, pre-queried into the fields
`fu_install_task_check_requirements` actually reads:
`provides/firmware[@type=flashed]` texts, `requires/*` nodes, the
`LVFS::UpdateProtocol` custom value, the `LVFS::VersionFormat` custom
values, the `branch` text, and the `releases/release` nodes in document
order.  A libxmlb query with zero results returns NULL plus an error,
which is modelled by the corresponding list being empty. -/
structure XbComponent where
  provides_flashed : List String
  requires_nodes : List XbRequire
  protocol : Option String
  verfmts : List String
  branch : Option String
  releases : List XbRelease
  deriving DecidableEq

/-- Read-only view of a `FuDevice`, holding exactly the accessors the
pipeline consumes. -/
structure FuDevice where
  name : String
  id : String
  guids : List String
  protocols : List String
  branch : Option String
  version : Option String
  version_lowest : Option String
  version_format : FwupdVersionFormat
  order : Int
  flag_version_check_required : Bool
  flag_locked : Bool
  flag_updatable : Bool
  flag_only_offline : Bool
  flag_internal : Bool
  flag_only_version_upgrade : Bool
  deriving DecidableEq

/-- The `FuInstallTask` object: one device, one component, and the
derived state `trust_flags` / `is_downgrade`. -/
structure FuInstallTask where
  device : FuDevice
  component : XbComponent
  trust_flags : FwupdReleaseFlags
  is_downgrade : Bool
  deriving DecidableEq

/-- The three external functions called by the pipeline, injected as the
spec directs (version comparator, version parser, trust evaluator). -/
structure FuEnv where
  fu_common_vercmp_full : String → String → FwupdVersionFormat → Int
  fu_common_version_parse_from_format : String → FwupdVersionFormat → String
  fu_keyring_get_release_flags : XbRelease → Except FwupdError FwupdReleaseFlags

/-- `fu_install_task_new` (lines 531-541): derived state starts as
`FWUPD_TRUST_FLAG_NONE` / false (`fu_install_task_init`, line 476). -/
def fu_install_task_new (device : FuDevice) (component : XbComponent) : FuInstallTask :=
  { device := device, component := component,
    trust_flags := FWUPD_TRUST_FLAG_NONE, is_downgrade := false }

/-- `fu_device_has_guid`: GUID-set membership. -/
def fu_device_has_guid (d : FuDevice) (g : String) : Bool :=
  d.guids.contains g

/-- `fu_device_has_protocol`: protocol-set membership. -/
def fu_device_has_protocol (d : FuDevice) (p : String) : Bool :=
  d.protocols.contains p

/-- `fu_common_strjoin_array`: join with a separator. -/
def fu_common_strjoin_array (sep : String) (xs : List String) : String :=
  String.intercalate sep xs

/-- GLib `g_strcmp0`: three-way string comparison where NULL sorts before
any string and two NULLs are equal; only its sign against 0 is consumed
by the pipeline. -/
def g_strcmp0 : Option String → Option String → Int
  | none, none => 0
  | none, some _ => -1
  | some _, none => 1
  | some a, some b => if a = b then 0 else if a < b then -1 else 1

/-- `fwupd_version_format_from_string` (libfwupd, external): unrecognised
strings map to `UNKNOWN`. -/
def fwupd_version_format_from_string (s : String) : FwupdVersionFormat :=
  if s = "plain" then .PLAIN
  else if s = "number" then .NUMBER
  else if s = "pair" then .PAIR
  else if s = "triplet" then .TRIPLET
  else if s = "quad" then .QUAD
  else if s = "bcd" then .BCD
  else if s = "intel-me" then .INTEL_ME
  else if s = "intel-me2" then .INTEL_ME2
  else .UNKNOWN

/-- `fwupd_version_format_to_string` (libfwupd, external). -/
def fwupd_version_format_to_string : FwupdVersionFormat → String
  | .UNKNOWN => "unknown"
  | .PLAIN => "plain"
  | .NUMBER => "number"
  | .PAIR => "pair"
  | .TRIPLET => "triplet"
  | .QUAD => "quad"
  | .BCD => "bcd"
  | .INTEL_ME => "intel-me"
  | .INTEL_ME2 => "intel-me2"

/-- `fu_install_task_verfmts_to_string` (lines 96-108): semicolon-joined
list of the declared release version formats. -/
def fu_install_task_verfmts_to_string (verfmts : List String) : String :=
  String.intercalate ";" verfmts

/-- `fu_install_task_check_verfmt` (lines 110-154). -/
def fu_install_task_check_verfmt (d : FuDevice) (verfmts : List String)
    (flags : FwupdInstallFlags) : Except FwupdError Unit :=
  if d.version_format = FwupdVersionFormat.UNKNOWN ∧ ¬flags.force then
    .error { kind := .NOT_SUPPORTED,
             message := "release version format " ++
               fu_install_task_verfmts_to_string verfmts ++
               " but no device version format" }
  else if verfmts.any (fun t => fwupd_version_format_from_string t == d.version_format) then
    .ok ()
  else if ¬flags.force then
    .error { kind := .NOT_SUPPORTED,
             message := "Firmware version formats were different, device was " ++
               fwupd_version_format_to_string d.version_format ++
               " and release is " ++ fu_install_task_verfmts_to_string verfmts }
  else
    .ok ()

/-- `fu_install_task_check_requirements_version_check` (lines 156-183).
A `requires/*` query with zero results returns NULL plus an error
(modelled by the empty list), converted to `NOT_SUPPORTED`. -/
def fu_install_task_check_requirements_version_check (c : XbComponent) :
    Except FwupdError Unit :=
  if c.requires_nodes.isEmpty then
    .error { kind := .NOT_SUPPORTED, message := "no results" }
  else if c.requires_nodes.any (fun r => r.element == "firmware" && r.text == none) then
    .ok ()
  else
    .error { kind := .NOT_SUPPORTED, message := "no firmware requirement" }

/-- GUID-match step (lines 222-247): the `provides` query failing (zero
results, modelled by the empty list) and the no-overlap case both yield
`NOT_FOUND`. -/
def fu_install_task_check_guid (d : FuDevice) (c : XbComponent) :
    Except FwupdError Unit :=
  if c.provides_flashed.isEmpty then
    .error { kind := .NOT_FOUND, message := "No supported devices found: no results" }
  else if c.provides_flashed.any (fun g => fu_device_has_guid d g) then
    .ok ()
  else
    .error { kind := .NOT_FOUND, message := "No supported devices found" }

/-- Pre-flash version-check requirement step (lines 249-255): only runs
when the device has `VERSION_CHECK_REQUIRED`; failures get the
`g_prefix_error` prefix. -/
def fu_install_task_check_version_check_required (d : FuDevice) (c : XbComponent) :
    Except FwupdError Unit :=
  if d.flag_version_check_required then
    match fu_install_task_check_requirements_version_check c with
    | .error e =>
        .error { kind := e.kind,
                 message := "device requires firmware with a version check: " ++ e.message }
    | .ok _ => .ok ()
  else .ok ()

/-- Protocol-compatibility step (lines 257-273). -/
def fu_install_task_check_protocol (d : FuDevice) (c : XbComponent)
    (flags : FwupdInstallFlags) : Except FwupdError Unit :=
  match c.protocol with
  | none => .ok ()
  | some protocol =>
    if ¬d.protocols.isEmpty ∧ ¬fu_device_has_protocol d protocol ∧ ¬flags.force then
      .error { kind := .NOT_SUPPORTED,
               message := "Device " ++ d.name ++ " does not support " ++ protocol ++
                 ", only " ++ fu_common_strjoin_array "|" d.protocols }
    else .ok ()

/-- Lock step (lines 275-284): never consults the install flags. -/
def fu_install_task_check_locked (d : FuDevice) : Except FwupdError Unit :=
  if d.flag_locked then
    .error { kind := .NOT_SUPPORTED,
             message := "Device " ++ d.name ++ " [" ++ d.id ++ "] is locked" }
  else .ok ()

/-- Branch step (lines 286-300): `g_strcmp0` on the raw optional branch
strings; the fallback to the word default happens only inside the error
message. -/
def fu_install_task_check_branch (d : FuDevice) (c : XbComponent)
    (flags : FwupdInstallFlags) : Except FwupdError Unit :=
  if ¬flags.allow_branch_switch ∧ g_strcmp0 d.branch c.branch ≠ 0 then
    .error { kind := .NOT_SUPPORTED,
             message := "Device " ++ d.name ++ " [" ++ d.id ++
               "] would switch firmware branch from " ++ d.branch.getD "default" ++
               " to " ++ c.branch.getD "default" }
  else .ok ()

/-- Updatable step (lines 302-311): never consults the install flags. -/
def fu_install_task_check_updatable (d : FuDevice) : Except FwupdError Unit :=
  if ¬d.flag_updatable then
    .error { kind := .NOT_SUPPORTED,
             message := "Device " ++ d.name ++ " [" ++ d.id ++
               "] does not currently allow updates" }
  else .ok ()

/-- Offline-only step (lines 313-324). -/
def fu_install_task_check_offline (d : FuDevice) (flags : FwupdInstallFlags) :
    Except FwupdError Unit :=
  if ¬flags.offline ∧ ¬flags.force ∧ d.flag_only_offline then
    .error { kind := .NOT_SUPPORTED,
             message := "Device " ++ d.name ++ " [" ++ d.id ++
               "] only allows offline updates" }
  else .ok ()

/-- Version-format agreement wrapper (lines 370-380): only runs without
FORCE and without ALLOW_BRANCH_SWITCH, and only when the component
declares at least one version format. -/
def fu_install_task_check_verfmt_step (d : FuDevice) (c : XbComponent)
    (flags : FwupdInstallFlags) : Except FwupdError Unit :=
  if ¬flags.force ∧ ¬flags.allow_branch_switch ∧ ¬c.verfmts.isEmpty then
    fu_install_task_check_verfmt d c.verfmts flags
  else .ok ()

/-- Minimum-version floor step (lines 382-394): compares the device's
`version_lowest` against the device's own current `version`. -/
def fu_install_task_check_version_lowest (env : FuEnv) (d : FuDevice)
    (flags : FwupdInstallFlags) (version : String) : Except FwupdError Unit :=
  match d.version_lowest with
  | none => .ok ()
  | some version_lowest =>
    if env.fu_common_vercmp_full version_lowest version d.version_format > 0 ∧
        ¬flags.force then
      .error { kind := .VERSION_NEWER,
               message := "Specified firmware is older than the minimum required version " ++
                 version ++ " < " ++ version_lowest }
    else .ok ()

/-- Release-version normalisation (lines 396-402): identity for `PLAIN`,
otherwise `fu_common_version_parse_from_format`. -/
def parsed_version_release (env : FuEnv) (d : FuDevice)
    (version_release_raw : String) : String :=
  if d.version_format = FwupdVersionFormat.PLAIN then version_release_raw
  else env.fu_common_version_parse_from_format version_release_raw d.version_format

/-- Values carried out of the early (state-preserving) part of the
pipeline: the device version, the normalised release version, the
selected release node and the comparison result. -/
structure PreOk where
  version : String
  version_release : String
  release : XbRelease
  vercmp : Int
  deriving DecidableEq

/-- Lines 222-420 of `fu_install_task_check_requirements`: every check up
to and including the same-version guard.  None of these lines writes to
the task, so this part is a pure function of its inputs. -/
def fu_install_task_check_requirements_pre (env : FuEnv) (self : FuInstallTask)
    (flags : FwupdInstallFlags) : Except FwupdError PreOk :=
  match fu_install_task_check_guid self.device self.component with
  | .error e => .error e
  | .ok _ =>
  match fu_install_task_check_version_check_required self.device self.component with
  | .error e => .error e
  | .ok _ =>
  match fu_install_task_check_protocol self.device self.component flags with
  | .error e => .error e
  | .ok _ =>
  match fu_install_task_check_locked self.device with
  | .error e => .error e
  | .ok _ =>
  match fu_install_task_check_branch self.device self.component flags with
  | .error e => .error e
  | .ok _ =>
  match fu_install_task_check_updatable self.device with
  | .error e => .error e
  | .ok _ =>
  match fu_install_task_check_offline self.device flags with
  | .error e => .error e
  | .ok _ =>
  match self.device.version with
  | none =>
      .error { kind := .INTERNAL,
               message := "Device " ++ self.device.name ++ " [" ++ self.device.id ++
                 "] has no firmware version" }
  | some version =>
  match self.component.releases.head? with
  | none =>
      .error { kind := .INVALID_FILE,
               message := self.device.name ++ " [" ++ self.device.id ++
                 "] has no firmware update metadata" }
  | some release =>
  match release.version with
  | none =>
      .error { kind := .INVALID_FILE, message := "Release has no firmware version" }
  | some version_release_raw =>
  match fu_install_task_check_verfmt_step self.device self.component flags with
  | .error e => .error e
  | .ok _ =>
  match fu_install_task_check_version_lowest env self.device flags version with
  | .error e => .error e
  | .ok _ =>
  let version_release := parsed_version_release env self.device version_release_raw
  let vercmp := env.fu_common_vercmp_full version version_release self.device.version_format
  if self.device.flag_only_version_upgrade ∧ vercmp ≥ 0 then
    .error { kind := .NOT_SUPPORTED, message := "Device only supports version upgrades" }
  else if vercmp = 0 ∧ ¬flags.allow_reinstall then
    .error { kind := .VERSION_SAME,
             message := "Specified firmware is already installed " ++ version_release }
  else
    .ok { version := version, version_release := version_release,
          release := release, vercmp := vercmp }

/-- `fu_install_task_check_requirements` (lines 197-445), with the state
threading made explicit: the returned task is the task after the call.
Line 421 assigns `is_downgrade` before the downgrade gate; the keyring
result is adopted into `trust_flags` only on evaluator success. -/
def fu_install_task_check_requirements (env : FuEnv) (self : FuInstallTask)
    (flags : FwupdInstallFlags) : Except FwupdError Unit × FuInstallTask :=
  match fu_install_task_check_requirements_pre env self flags with
  | .error e => (.error e, self)
  | .ok pre =>
    if pre.vercmp > 0 ∧ ¬flags.allow_older ∧ ¬flags.allow_branch_switch then
      (.error { kind := .VERSION_NEWER,
                message := "Specified firmware is older than installed " ++
                  pre.version_release ++ " < " ++ pre.version },
       { self with is_downgrade := decide (pre.vercmp > 0) })
    else
      match env.fu_keyring_get_release_flags pre.release with
      | .ok tf =>
          (.ok (), { self with is_downgrade := decide (pre.vercmp > 0), trust_flags := tf })
      | .error e =>
        if e.kind = FwupdErrorKind.NOT_SUPPORTED then
          (.ok (), { self with is_downgrade := decide (pre.vercmp > 0) })
        else
          (.error e, { self with is_downgrade := decide (pre.vercmp > 0) })

/-- `fu_install_task_get_action_id` (lines 455-473). -/
def fu_install_task_get_action_id (self : FuInstallTask) : String :=
  if ¬self.device.flag_internal then
    if self.is_downgrade then "org.freedesktop.fwupd.downgrade-hotplug"
    else if self.trust_flags.payload then "org.freedesktop.fwupd.update-hotplug-trusted"
    else "org.freedesktop.fwupd.update-hotplug"
  else
    if self.is_downgrade then "org.freedesktop.fwupd.downgrade-internal"
    else if self.trust_flags.payload then "org.freedesktop.fwupd.update-internal-trusted"
    else "org.freedesktop.fwupd.update-internal"

/-- Modelled from the spec: the six-row authorization-tier table of
section 4.4, as a function of the three facts named there (locality,
downgrade, payload trust).  Used only to compare against
`fu_install_task_get_action_id`. -/
def action_id_spec_table (internal downgrade trusted : Bool) : String :=
  match internal, downgrade, trusted with
  | false, true, _ => "org.freedesktop.fwupd.downgrade-hotplug"
  | false, false, true => "org.freedesktop.fwupd.update-hotplug-trusted"
  | false, false, false => "org.freedesktop.fwupd.update-hotplug"
  | true, true, _ => "org.freedesktop.fwupd.downgrade-internal"
  | true, false, true => "org.freedesktop.fwupd.update-internal-trusted"
  | true, false, false => "org.freedesktop.fwupd.update-internal"

/-- `fu_install_task_compare` (lines 510-520). -/
def fu_install_task_compare (task1 task2 : FuInstallTask) : Int :=
  if task1.device.order < task2.device.order then -1
  else if task1.device.order > task2.device.order then 1
  else 0

/-! Concrete fixtures used for counterexamples and witnesses.  The demo
comparator orders version strings by length, which is enough to realise
upgrade (negative), same (zero) and downgrade (positive) outcomes on
short inputs. -/

/-- Demo instantiation of the external comparator contract. -/
def vercmp_demo (a b : String) : FwupdVersionFormat → Int :=
  fun _ => (Int.ofNat a.length) - (Int.ofNat b.length)

/-- Demo environment: trusted-payload keyring verdict. -/
def env_demo : FuEnv :=
  { fu_common_vercmp_full := vercmp_demo,
    fu_common_version_parse_from_format := fun raw _ => raw,
    fu_keyring_get_release_flags :=
      fun _ => .ok { metadata := false, payload := true } }

/-- Demo environment whose keyring evaluator reports the soft
`NOT_SUPPORTED` failure. -/
def env_keyring_notsup : FuEnv :=
  { env_demo with fu_keyring_get_release_flags :=
      fun _ => .error { kind := .NOT_SUPPORTED, message := "no GPG support" } }

/-- Demo environment whose keyring evaluator reports a hard failure. -/
def env_keyring_sig : FuEnv :=
  { env_demo with fu_keyring_get_release_flags :=
      fun _ => .error { kind := .SIGNATURE_INVALID, message := "bad signature" } }

/-- Demo device: updatable, unbranched, current version of length 2. -/
def device_demo : FuDevice :=
  { name := "dev", id := "id0", guids := ["guid-a"], protocols := [],
    branch := none, version := some "22", version_lowest := none,
    version_format := .PLAIN, order := 0,
    flag_version_check_required := false, flag_locked := false,
    flag_updatable := true, flag_only_offline := false,
    flag_internal := false, flag_only_version_upgrade := false }

/-- Demo component: matching GUID, a single release of version length 1,
so installing it on `device_demo` is a downgrade under `vercmp_demo`. -/
def component_demo : XbComponent :=
  { provides_flashed := ["guid-a"], requires_nodes := [], protocol := none,
    verfmts := [], branch := none, releases := [{ version := some "1" }] }

/-- C1 counterexample: with no install flags, installing the length-1
release on the length-2 device fails the downgrade gate, yet the task's
`is_downgrade` has already been flipped from false to true by line 421,
refuting the claim that derived state is unchanged on every failure. -/
theorem c1_counterexample :
    (fu_install_task_new device_demo component_demo).is_downgrade = false ∧
    (fu_install_task_check_requirements env_demo
        (fu_install_task_new device_demo component_demo)
        FWUPD_INSTALL_FLAG_NONE).1 =
      Except.error { kind := .VERSION_NEWER,
                     message := "Specified firmware is older than installed 1 < 22" } ∧
    (fu_install_task_check_requirements env_demo
        (fu_install_task_new device_demo component_demo)
        FWUPD_INSTALL_FLAG_NONE).2.is_downgrade = true :=
  ⟨rfl, rfl, rfl⟩

/-- C8: the authorization-tier resolver is a pure function of exactly the
device's INTERNAL flag, `is_downgrade`, and the payload-trust bit, and it
agrees with the six-row table of the spec, with downgrade deciding the
tier regardless of the trust bit. -/
theorem c8_action_id_is_spec_table (self : FuInstallTask) :
    fu_install_task_get_action_id self =
      action_id_spec_table self.device.flag_internal self.is_downgrade
        self.trust_flags.payload := by
  cases h1 : self.device.flag_internal <;>
    cases h2 : self.is_downgrade <;>
      cases h3 : self.trust_flags.payload <;>
        simp [fu_install_task_get_action_id, action_id_spec_table, h1, h2, h3]

/-- C9: the task comparator returns less/equal/greater exactly as the
first device's `order` is less than/equal to/greater than the second's,
so it is a total preorder determined solely by that field, and two tasks
with equal order compare equal irrespective of every other field. -/
theorem c9_compare_is_order_comparison (task1 task2 : FuInstallTask) :
    (fu_install_task_compare task1 task2 = -1 ↔
      task1.device.order < task2.device.order) ∧
    (fu_install_task_compare task1 task2 = 0 ↔
      task1.device.order = task2.device.order) ∧
    (fu_install_task_compare task1 task2 = 1 ↔
      task2.device.order < task1.device.order) := by
  unfold fu_install_task_compare
  split_ifs with h1 h2 <;> refine ⟨?_, ?_, ?_⟩ <;> simp_all <;> omega

/-- Shared fixture: a freshly constructed demo task. -/
def task_demo : FuInstallTask := fu_install_task_new device_demo component_demo

/-- C1 (amended): a failed `fu_install_task_check_requirements` run never
mutates `trust_flags` (nor the device/component references); the only
derived field a failing run may mutate is `is_downgrade`, which line 421
assigns before the downgrade gate and the trust evaluation, so failures
at those last two steps leave it set to the fresh comparison verdict
rather than its pre-call value. -/
theorem c1_amended_failure_mutates_only_is_downgrade (env : FuEnv)
    (self : FuInstallTask) (flags : FwupdInstallFlags) (e : FwupdError)
    (t : FuInstallTask)
    (h : fu_install_task_check_requirements env self flags = (.error e, t)) :
    t.trust_flags = self.trust_flags ∧ t.device = self.device ∧
      t.component = self.component := by
  unfold fu_install_task_check_requirements at h
  cases hpre : fu_install_task_check_requirements_pre env self flags with
  | error e2 =>
    simp only [hpre, Prod.mk.injEq] at h
    obtain ⟨-, ht⟩ := h
    subst ht
    exact ⟨rfl, rfl, rfl⟩
  | ok pre =>
    simp only [hpre] at h
    split at h
    · simp only [Prod.mk.injEq] at h
      obtain ⟨-, ht⟩ := h
      subst ht
      exact ⟨rfl, rfl, rfl⟩
    · split at h
      · simp only [Prod.mk.injEq] at h
        exact Except.noConfusion h.1
      · split at h
        · simp only [Prod.mk.injEq] at h
          exact Except.noConfusion h.1
        · simp only [Prod.mk.injEq] at h
          obtain ⟨-, ht⟩ := h
          subst ht
          exact ⟨rfl, rfl, rfl⟩

/-- Witness for the amended C1 theorem at the concrete downgrade-blocked
failure of `task_demo`. -/
theorem c1_amended_failure_mutates_only_is_downgrade_witness :
    ({ task_demo with is_downgrade := true } : FuInstallTask).trust_flags =
        task_demo.trust_flags ∧
      ({ task_demo with is_downgrade := true } : FuInstallTask).device =
        task_demo.device ∧
      ({ task_demo with is_downgrade := true } : FuInstallTask).component =
        task_demo.component :=
  c1_amended_failure_mutates_only_is_downgrade env_demo task_demo
    FWUPD_INSTALL_FLAG_NONE
    { kind := .VERSION_NEWER,
      message := "Specified firmware is older than installed 1 < 22" }
    { task_demo with is_downgrade := true } rfl

/-- C10: whenever `fu_install_task_check_requirements` succeeds and
leaves `is_downgrade` true, the install flags contained ALLOW_OLDER or
ALLOW_BRANCH_SWITCH. -/
theorem c10_success_downgrade_needs_flag (env : FuEnv) (self : FuInstallTask)
    (flags : FwupdInstallFlags) (t : FuInstallTask)
    (h : fu_install_task_check_requirements env self flags = (.ok (), t))
    (hd : t.is_downgrade = true) :
    flags.allow_older = true ∨ flags.allow_branch_switch = true := by
  unfold fu_install_task_check_requirements at h
  cases hpre : fu_install_task_check_requirements_pre env self flags with
  | error e2 =>
    simp only [hpre, Prod.mk.injEq] at h
    exact Except.noConfusion h.1
  | ok pre =>
    simp only [hpre] at h
    by_cases hao : flags.allow_older = true
    · exact Or.inl hao
    by_cases habs : flags.allow_branch_switch = true
    · exact Or.inr habs
    exfalso
    split at h
    · simp only [Prod.mk.injEq] at h
      exact Except.noConfusion h.1
    · rename_i hgate
      split at h
      · simp only [Prod.mk.injEq] at h
        obtain ⟨-, ht⟩ := h
        subst ht
        simp only [decide_eq_true_eq] at hd
        exact hgate ⟨hd, hao, habs⟩
      · split at h
        · simp only [Prod.mk.injEq] at h
          obtain ⟨-, ht⟩ := h
          subst ht
          simp only [decide_eq_true_eq] at hd
          exact hgate ⟨hd, hao, habs⟩
        · simp only [Prod.mk.injEq] at h
          exact Except.noConfusion h.1

/-- Witness for C10 at a concrete successful downgrade with ALLOW_OLDER. -/
theorem c10_success_downgrade_needs_flag_witness :
    ({ FWUPD_INSTALL_FLAG_NONE with allow_older := true } : FwupdInstallFlags).allow_older = true ∨
      ({ FWUPD_INSTALL_FLAG_NONE with allow_older := true } : FwupdInstallFlags).allow_branch_switch = true :=
  c10_success_downgrade_needs_flag env_demo task_demo
    { FWUPD_INSTALL_FLAG_NONE with allow_older := true }
    { task_demo with
        is_downgrade := true,
        trust_flags := { metadata := false, payload := true } }
    rfl rfl

/-- C7: whenever no GUID of the component's flashed-firmware provides
entries is held by the device (in particular when there are no such
entries at all), `fu_install_task_check_requirements` fails with
`NOT_FOUND`, whatever the install flags are (FORCE included), leaving
the task untouched; the message is the literal one for a nonempty
provides list and carries the query-error suffix for an empty one. -/
theorem c7_no_guid_overlap_not_found (env : FuEnv) (self : FuInstallTask)
    (flags : FwupdInstallFlags)
    (h : self.component.provides_flashed.all
      (fun g => !fu_device_has_guid self.device g) = true) :
    fu_install_task_check_requirements env self flags =
      (.error { kind := .NOT_FOUND,
                message := if self.component.provides_flashed.isEmpty then
                    "No supported devices found: no results"
                  else "No supported devices found" }, self) := by
  simp only [List.all_eq_true] at h
  have hguid : fu_install_task_check_guid self.device self.component =
      .error { kind := .NOT_FOUND,
               message := if self.component.provides_flashed.isEmpty then
                   "No supported devices found: no results"
                 else "No supported devices found" } := by
    unfold fu_install_task_check_guid
    by_cases he : self.component.provides_flashed.isEmpty
    · simp [he]
    · have hany : ¬ self.component.provides_flashed.any
          (fun g => fu_device_has_guid self.device g) = true := by
        simp only [List.any_eq_true]
        rintro ⟨g, hg, hp⟩
        have hb := h g hg
        simp [hp] at hb
      simp [he, hany]
  unfold fu_install_task_check_requirements fu_install_task_check_requirements_pre
  simp only [hguid]

/-- Witness for C7: a component providing only an unheld GUID fails with
`NOT_FOUND` even under FORCE. -/
theorem c7_no_guid_overlap_not_found_witness :
    fu_install_task_check_requirements env_demo
        (fu_install_task_new device_demo
          { component_demo with provides_flashed := ["guid-x"] })
        { FWUPD_INSTALL_FLAG_NONE with force := true } =
      (.error { kind := .NOT_FOUND, message := "No supported devices found" },
       fu_install_task_new device_demo
         { component_demo with provides_flashed := ["guid-x"] }) := by
  have hres := c7_no_guid_overlap_not_found env_demo
    (fu_install_task_new device_demo
      { component_demo with provides_flashed := ["guid-x"] })
    { FWUPD_INSTALL_FLAG_NONE with force := true } rfl
  simpa using hres

/-- C6: even with FORCE set, a locked device, a non-updatable device, a
device lacking a firmware version and a component with no release node
still fail (with `NOT_SUPPORTED`, `NOT_SUPPORTED`, `INTERNAL` and
`INVALID_FILE` respectively), provided the checks before each of those
four are passed: none of them consults the install flags. -/
theorem c6_force_never_bypasses_four_checks (env : FuEnv)
    (self : FuInstallTask) (flags : FwupdInstallFlags)
    (_hforce : flags.force = true) :
    (fu_install_task_check_guid self.device self.component = .ok () →
      fu_install_task_check_version_check_required self.device self.component = .ok () →
      fu_install_task_check_protocol self.device self.component flags = .ok () →
      self.device.flag_locked = true →
      fu_install_task_check_requirements env self flags =
        (.error { kind := .NOT_SUPPORTED,
                  message := "Device " ++ self.device.name ++ " [" ++
                    self.device.id ++ "] is locked" }, self)) ∧
    (fu_install_task_check_guid self.device self.component = .ok () →
      fu_install_task_check_version_check_required self.device self.component = .ok () →
      fu_install_task_check_protocol self.device self.component flags = .ok () →
      fu_install_task_check_locked self.device = .ok () →
      fu_install_task_check_branch self.device self.component flags = .ok () →
      self.device.flag_updatable = false →
      fu_install_task_check_requirements env self flags =
        (.error { kind := .NOT_SUPPORTED,
                  message := "Device " ++ self.device.name ++ " [" ++
                    self.device.id ++ "] does not currently allow updates" }, self)) ∧
    (fu_install_task_check_guid self.device self.component = .ok () →
      fu_install_task_check_version_check_required self.device self.component = .ok () →
      fu_install_task_check_protocol self.device self.component flags = .ok () →
      fu_install_task_check_locked self.device = .ok () →
      fu_install_task_check_branch self.device self.component flags = .ok () →
      fu_install_task_check_updatable self.device = .ok () →
      fu_install_task_check_offline self.device flags = .ok () →
      self.device.version = none →
      fu_install_task_check_requirements env self flags =
        (.error { kind := .INTERNAL,
                  message := "Device " ++ self.device.name ++ " [" ++
                    self.device.id ++ "] has no firmware version" }, self)) ∧
    (∀ v : String,
      fu_install_task_check_guid self.device self.component = .ok () →
      fu_install_task_check_version_check_required self.device self.component = .ok () →
      fu_install_task_check_protocol self.device self.component flags = .ok () →
      fu_install_task_check_locked self.device = .ok () →
      fu_install_task_check_branch self.device self.component flags = .ok () →
      fu_install_task_check_updatable self.device = .ok () →
      fu_install_task_check_offline self.device flags = .ok () →
      self.device.version = some v →
      self.component.releases = [] →
      fu_install_task_check_requirements env self flags =
        (.error { kind := .INVALID_FILE,
                  message := self.device.name ++ " [" ++ self.device.id ++
                    "] has no firmware update metadata" }, self)) := by
  refine ⟨?_, ?_, ?_, ?_⟩
  · intro h1 h2 h3 hl
    have hstep : fu_install_task_check_locked self.device =
        .error { kind := .NOT_SUPPORTED,
                 message := "Device " ++ self.device.name ++ " [" ++
                   self.device.id ++ "] is locked" } := by
      unfold fu_install_task_check_locked
      simp [hl]
    unfold fu_install_task_check_requirements fu_install_task_check_requirements_pre
    simp only [h1, h2, h3, hstep]
  · intro h1 h2 h3 h4 h5 hu
    have hstep : fu_install_task_check_updatable self.device =
        .error { kind := .NOT_SUPPORTED,
                 message := "Device " ++ self.device.name ++ " [" ++
                   self.device.id ++ "] does not currently allow updates" } := by
      unfold fu_install_task_check_updatable
      simp [hu]
    unfold fu_install_task_check_requirements fu_install_task_check_requirements_pre
    simp only [h1, h2, h3, h4, h5, hstep]
  · intro h1 h2 h3 h4 h5 h6 h7 hv
    unfold fu_install_task_check_requirements fu_install_task_check_requirements_pre
    simp only [h1, h2, h3, h4, h5, h6, h7, hv]
  · intro v h1 h2 h3 h4 h5 h6 h7 hv hr
    unfold fu_install_task_check_requirements fu_install_task_check_requirements_pre
    simp only [h1, h2, h3, h4, h5, h6, h7, hv, hr, List.head?]

/-- Witness for C6 at a concrete locked device under FORCE. -/
theorem c6_force_never_bypasses_four_checks_witness :
    fu_install_task_check_requirements env_demo
        (fu_install_task_new { device_demo with flag_locked := true } component_demo)
        { FWUPD_INSTALL_FLAG_NONE with force := true } =
      (.error { kind := .NOT_SUPPORTED, message := "Device dev [id0] is locked" },
       fu_install_task_new { device_demo with flag_locked := true } component_demo) := by
  have hres := (c6_force_never_bypasses_four_checks env_demo
    (fu_install_task_new { device_demo with flag_locked := true } component_demo)
    { FWUPD_INSTALL_FLAG_NONE with force := true } rfl).1 rfl rfl rfl rfl
  simpa using hres

/-- C4: when the run reaches the minimum-version floor (all earlier
checks pass), a device defining `version_lowest` with
`compare(version_lowest, device.version) > 0` and FORCE unset fails with
`VERSION_NEWER` saying the firmware is older than the minimum required
version; and the floor check itself is passed by any device/flag pair
with FORCE set or `version_lowest` absent. -/
theorem c4_version_lowest_floor (env : FuEnv) (self : FuInstallTask)
    (flags : FwupdInstallFlags) :
    (∀ (version version_lowest : String) (release : XbRelease)
        (version_release_raw : String),
      fu_install_task_check_guid self.device self.component = .ok () →
      fu_install_task_check_version_check_required self.device self.component = .ok () →
      fu_install_task_check_protocol self.device self.component flags = .ok () →
      fu_install_task_check_locked self.device = .ok () →
      fu_install_task_check_branch self.device self.component flags = .ok () →
      fu_install_task_check_updatable self.device = .ok () →
      fu_install_task_check_offline self.device flags = .ok () →
      self.device.version = some version →
      self.component.releases.head? = some release →
      release.version = some version_release_raw →
      fu_install_task_check_verfmt_step self.device self.component flags = .ok () →
      self.device.version_lowest = some version_lowest →
      env.fu_common_vercmp_full version_lowest version self.device.version_format > 0 →
      flags.force = false →
      fu_install_task_check_requirements env self flags =
        (.error { kind := .VERSION_NEWER,
                  message := "Specified firmware is older than the minimum required version " ++
                    version ++ " < " ++ version_lowest }, self)) ∧
    (∀ (d : FuDevice) (flags2 : FwupdInstallFlags) (v : String),
      flags2.force = true ∨ d.version_lowest = none →
      fu_install_task_check_version_lowest env d flags2 v = .ok ()) := by
  constructor
  · intro version version_lowest release version_release_raw
      h1 h2 h3 h4 h5 h6 h7 hv hr hrv h11 hlow hcmp hforce
    have hstep : fu_install_task_check_version_lowest env self.device flags version =
        .error { kind := .VERSION_NEWER,
                 message := "Specified firmware is older than the minimum required version " ++
                   version ++ " < " ++ version_lowest } := by
      unfold fu_install_task_check_version_lowest
      simp [hlow, hcmp, hforce]
    unfold fu_install_task_check_requirements fu_install_task_check_requirements_pre
    simp only [h1, h2, h3, h4, h5, h6, h7, hv, hr, hrv, h11, hstep]
  · intro d flags2 v hbypass
    unfold fu_install_task_check_version_lowest
    rcases hbypass with hf | hnone
    · cases hvl : d.version_lowest with
      | none => simp
      | some vl => simp [hf]
    · simp [hnone]

/-- Witness for C4: a device whose floor (length 3) exceeds its current
version (length 2) fails with `VERSION_NEWER` without FORCE, and the
floor check passes once FORCE is set. -/
theorem c4_version_lowest_floor_witness :
    fu_install_task_check_requirements env_demo
        (fu_install_task_new { device_demo with version_lowest := some "333" }
          component_demo)
        FWUPD_INSTALL_FLAG_NONE =
      (.error { kind := .VERSION_NEWER,
                message := "Specified firmware is older than the minimum required version 22 < 333" },
       fu_install_task_new { device_demo with version_lowest := some "333" }
         component_demo) ∧
    fu_install_task_check_version_lowest env_demo
        { device_demo with version_lowest := some "333" }
        { FWUPD_INSTALL_FLAG_NONE with force := true } "22" = .ok () := by
  constructor
  · have hres := (c4_version_lowest_floor env_demo
      (fu_install_task_new { device_demo with version_lowest := some "333" }
        component_demo)
      FWUPD_INSTALL_FLAG_NONE).1 "22" "333" { version := some "1" } "1"
      rfl rfl rfl rfl rfl rfl rfl rfl rfl rfl rfl rfl (by decide) rfl
    simpa using hres
  · exact (c4_version_lowest_floor env_demo
      (fu_install_task_new { device_demo with version_lowest := some "333" }
        component_demo)
      FWUPD_INSTALL_FLAG_NONE).2
      { device_demo with version_lowest := some "333" }
      { FWUPD_INSTALL_FLAG_NONE with force := true } "22" (Or.inl rfl)

/-- Helper: `g_strcmp0` returns zero exactly on equal optional strings. -/
theorem g_strcmp0_eq_zero_iff (a b : Option String) : g_strcmp0 a b = 0 ↔ a = b := by
  cases a with
  | none => cases b <;> simp [g_strcmp0]
  | some x =>
    cases b with
    | none => simp [g_strcmp0]
    | some y =>
      simp only [g_strcmp0, Option.some.injEq]
      split_ifs with h1 h2 <;> simp [h1]

/-- C2 counterexample: a device whose branch is the literal string
default versus a component with no branch element: the defaulted
branches agree, ALLOW_BRANCH_SWITCH is unset, all checks before the
branch check pass, yet the pipeline fails the branch check with
`NOT_SUPPORTED`, because line 290 compares the raw optional strings with
`g_strcmp0` and the defaulting happens only inside the message. -/
theorem c2_counterexample :
    ({ device_demo with branch := some "default" } : FuDevice).branch.getD "default" =
        component_demo.branch.getD "default" ∧
    FWUPD_INSTALL_FLAG_NONE.allow_branch_switch = false ∧
    fu_install_task_check_requirements env_demo
        (fu_install_task_new { device_demo with branch := some "default" }
          component_demo)
        FWUPD_INSTALL_FLAG_NONE =
      (.error { kind := .NOT_SUPPORTED,
                message := "Device dev [id0] would switch firmware branch from default to default" },
       fu_install_task_new { device_demo with branch := some "default" }
         component_demo) :=
  ⟨rfl, rfl, rfl⟩

/-- C2 (amended): the branch check passes exactly when
ALLOW_BRANCH_SWITCH is set or the device's and component's branches are
equal as optional strings — two absent branches are equal, but an absent
branch differs from every present one, including the literal string
default; when it fails on a run that reaches it, the pipeline returns
`NOT_SUPPORTED` naming both branches, defaulted only inside the
message. -/
theorem c2_branch_check_amended :
    (∀ (d : FuDevice) (c : XbComponent) (flags : FwupdInstallFlags),
      fu_install_task_check_branch d c flags = .ok () ↔
        (flags.allow_branch_switch = true ∨ d.branch = c.branch)) ∧
    (∀ (env : FuEnv) (self : FuInstallTask) (flags : FwupdInstallFlags),
      fu_install_task_check_guid self.device self.component = .ok () →
      fu_install_task_check_version_check_required self.device self.component = .ok () →
      fu_install_task_check_protocol self.device self.component flags = .ok () →
      fu_install_task_check_locked self.device = .ok () →
      flags.allow_branch_switch = false →
      self.device.branch ≠ self.component.branch →
      fu_install_task_check_requirements env self flags =
        (.error { kind := .NOT_SUPPORTED,
                  message := "Device " ++ self.device.name ++ " [" ++ self.device.id ++
                    "] would switch firmware branch from " ++
                    self.device.branch.getD "default" ++ " to " ++
                    self.component.branch.getD "default" }, self)) := by
  constructor
  · intro d c flags
    unfold fu_install_task_check_branch
    by_cases habs : flags.allow_branch_switch = true
    · simp [habs]
    · by_cases heq : d.branch = c.branch
      · have hz : g_strcmp0 d.branch c.branch = 0 := (g_strcmp0_eq_zero_iff _ _).mpr heq
        rw [if_neg]
        · simp [heq]
        · rintro ⟨-, hcontra⟩
          exact hcontra hz
      · have hz : g_strcmp0 d.branch c.branch ≠ 0 :=
          fun hc => heq ((g_strcmp0_eq_zero_iff _ _).mp hc)
        simp [habs, hz, heq]
  · intro env self flags h1 h2 h3 h4 habs hne
    have hstep : fu_install_task_check_branch self.device self.component flags =
        .error { kind := .NOT_SUPPORTED,
                 message := "Device " ++ self.device.name ++ " [" ++ self.device.id ++
                   "] would switch firmware branch from " ++
                   self.device.branch.getD "default" ++ " to " ++
                   self.component.branch.getD "default" } := by
      have hz : g_strcmp0 self.device.branch self.component.branch ≠ 0 :=
        fun hc => hne ((g_strcmp0_eq_zero_iff _ _).mp hc)
      unfold fu_install_task_check_branch
      simp [habs, hz]
    unfold fu_install_task_check_requirements fu_install_task_check_requirements_pre
    simp only [h1, h2, h3, h4, hstep]

/-- Witness for the amended C2 theorem at a concrete stable→testing
branch switch without ALLOW_BRANCH_SWITCH. -/
theorem c2_branch_check_amended_witness :
    fu_install_task_check_requirements env_demo
        (fu_install_task_new { device_demo with branch := some "stable" }
          { component_demo with branch := some "testing" })
        FWUPD_INSTALL_FLAG_NONE =
      (.error { kind := .NOT_SUPPORTED,
                message := "Device dev [id0] would switch firmware branch from stable to testing" },
       fu_install_task_new { device_demo with branch := some "stable" }
         { component_demo with branch := some "testing" }) := by
  have hres := c2_branch_check_amended.2 env_demo
    (fu_install_task_new { device_demo with branch := some "stable" }
      { component_demo with branch := some "testing" })
    FWUPD_INSTALL_FLAG_NONE rfl rfl rfl rfl rfl (by decide)
  simpa using hres

/-- Fixture: a device with ONLY_VERSION_UPGRADE whose version compares
equal to the demo release under `vercmp_demo`. -/
def device_ovu : FuDevice :=
  { device_demo with version := some "2", flag_only_version_upgrade := true }

/-- C3 counterexample: the run reaches the version comparison with
vercmp = 0 and ALLOW_REINSTALL absent, yet it fails with `NOT_SUPPORTED`
(the ONLY_VERSION_UPGRADE check at lines 405-412 fires on vercmp >= 0
before the same-version guard), not with `VERSION_SAME` as the claim
requires. -/
theorem c3_counterexample :
    env_demo.fu_common_vercmp_full "2"
        (parsed_version_release env_demo device_ovu "1") device_ovu.version_format = 0 ∧
    FWUPD_INSTALL_FLAG_NONE.allow_reinstall = false ∧
    fu_install_task_check_requirements env_demo
        (fu_install_task_new device_ovu component_demo) FWUPD_INSTALL_FLAG_NONE =
      (.error { kind := .NOT_SUPPORTED,
                message := "Device only supports version upgrades" },
       fu_install_task_new device_ovu component_demo) :=
  ⟨rfl, rfl, rfl⟩

/-- C3 (amended): for runs reaching the version comparison with
vercmp = 0 on a device without the ONLY_VERSION_UPGRADE flag (whose
check precedes the same-version guard and fires on vercmp >= 0
regardless of ALLOW_REINSTALL), lacking ALLOW_REINSTALL fails with
`VERSION_SAME` (already installed), and the same inputs with
ALLOW_REINSTALL added proceed past the same-version check. -/
theorem c3_same_version_amended (env : FuEnv) (self : FuInstallTask)
    (flags : FwupdInstallFlags) (version : String) (release : XbRelease)
    (version_release_raw : String)
    (h1 : fu_install_task_check_guid self.device self.component = .ok ())
    (h2 : fu_install_task_check_version_check_required self.device self.component = .ok ())
    (h3 : fu_install_task_check_protocol self.device self.component flags = .ok ())
    (h4 : fu_install_task_check_locked self.device = .ok ())
    (h5 : fu_install_task_check_branch self.device self.component flags = .ok ())
    (h6 : fu_install_task_check_updatable self.device = .ok ())
    (h7 : fu_install_task_check_offline self.device flags = .ok ())
    (hv : self.device.version = some version)
    (hr : self.component.releases.head? = some release)
    (hrv : release.version = some version_release_raw)
    (h11 : fu_install_task_check_verfmt_step self.device self.component flags = .ok ())
    (h12 : fu_install_task_check_version_lowest env self.device flags version = .ok ())
    (hup : self.device.flag_only_version_upgrade = false)
    (hcmp : env.fu_common_vercmp_full version
      (parsed_version_release env self.device version_release_raw)
      self.device.version_format = 0) :
    (flags.allow_reinstall = false →
      fu_install_task_check_requirements env self flags =
        (.error { kind := .VERSION_SAME,
                  message := "Specified firmware is already installed " ++
                    parsed_version_release env self.device version_release_raw },
         self)) ∧
    (fu_install_task_check_requirements_pre env self
        { flags with allow_reinstall := true } =
      .ok { version := version,
            version_release := parsed_version_release env self.device version_release_raw,
            release := release, vercmp := 0 }) := by
  constructor
  · intro har
    have hpre : fu_install_task_check_requirements_pre env self flags =
        .error { kind := .VERSION_SAME,
                 message := "Specified firmware is already installed " ++
                   parsed_version_release env self.device version_release_raw } := by
      unfold fu_install_task_check_requirements_pre
      simp only [h1, h2, h3, h4, h5, h6, h7, hv, hr, hrv, h11, h12]
      simp [hup, hcmp, har]
    unfold fu_install_task_check_requirements
    simp only [hpre]
  · have h3' : fu_install_task_check_protocol self.device self.component
        { flags with allow_reinstall := true } = .ok () := h3
    have h5' : fu_install_task_check_branch self.device self.component
        { flags with allow_reinstall := true } = .ok () := h5
    have h7' : fu_install_task_check_offline self.device
        { flags with allow_reinstall := true } = .ok () := h7
    have h11' : fu_install_task_check_verfmt_step self.device self.component
        { flags with allow_reinstall := true } = .ok () := h11
    have h12' : fu_install_task_check_version_lowest env self.device
        { flags with allow_reinstall := true } version = .ok () := h12
    unfold fu_install_task_check_requirements_pre
    simp only [h1, h2, h3', h4, h5', h6, h7', hv, hr, hrv, h11', h12']
    simp [hup, hcmp]

/-- Witness for the amended C3 theorem: a same-version install on a
device without ONLY_VERSION_UPGRADE fails with `VERSION_SAME` without
ALLOW_REINSTALL, and passes the guard with it. -/
theorem c3_same_version_amended_witness :
    (fu_install_task_check_requirements env_demo
        (fu_install_task_new { device_demo with version := some "2" } component_demo)
        FWUPD_INSTALL_FLAG_NONE =
      (.error { kind := .VERSION_SAME,
                message := "Specified firmware is already installed 1" },
       fu_install_task_new { device_demo with version := some "2" } component_demo)) ∧
    (fu_install_task_check_requirements_pre env_demo
        (fu_install_task_new { device_demo with version := some "2" } component_demo)
        { FWUPD_INSTALL_FLAG_NONE with allow_reinstall := true } =
      .ok { version := "2", version_release := "1",
            release := { version := some "1" }, vercmp := 0 }) := by
  constructor
  · have hres := (c3_same_version_amended env_demo
      (fu_install_task_new { device_demo with version := some "2" } component_demo)
      FWUPD_INSTALL_FLAG_NONE "2" { version := some "1" } "1"
      rfl rfl rfl rfl rfl rfl rfl rfl rfl rfl rfl rfl rfl (by decide)).1 rfl
    simpa using hres
  · have hres := (c3_same_version_amended env_demo
      (fu_install_task_new { device_demo with version := some "2" } component_demo)
      FWUPD_INSTALL_FLAG_NONE "2" { version := some "1" } "1"
      rfl rfl rfl rfl rfl rfl rfl rfl rfl rfl rfl rfl rfl (by decide)).2
    simpa using hres

/-- C5: on a run that reaches the trust-evaluation step (the early
checks pass and the downgrade gate does not fire) starting from the
initial empty trust flags: a keyring failure of kind `NOT_SUPPORTED`
still yields success with `trust_flags` left empty; a keyring failure of
any other kind is returned unmodified; and a keyring success installs
the returned flags as the task's `trust_flags`. -/
theorem c5_trust_evaluation (env : FuEnv) (self : FuInstallTask)
    (flags : FwupdInstallFlags) (p : PreOk)
    (hpre : fu_install_task_check_requirements_pre env self flags = .ok p)
    (hgate : ¬(p.vercmp > 0 ∧ ¬flags.allow_older ∧ ¬flags.allow_branch_switch))
    (h0 : self.trust_flags = FWUPD_TRUST_FLAG_NONE) :
    (∀ e : FwupdError, env.fu_keyring_get_release_flags p.release = .error e →
      e.kind = .NOT_SUPPORTED →
      fu_install_task_check_requirements env self flags =
        (.ok (), { self with is_downgrade := decide (p.vercmp > 0) }) ∧
      ({ self with is_downgrade := decide (p.vercmp > 0) } : FuInstallTask).trust_flags =
        FWUPD_TRUST_FLAG_NONE) ∧
    (∀ e : FwupdError, env.fu_keyring_get_release_flags p.release = .error e →
      e.kind ≠ .NOT_SUPPORTED →
      fu_install_task_check_requirements env self flags =
        (.error e, { self with is_downgrade := decide (p.vercmp > 0) })) ∧
    (∀ tf : FwupdReleaseFlags, env.fu_keyring_get_release_flags p.release = .ok tf →
      fu_install_task_check_requirements env self flags =
        (.ok (), { self with
                     is_downgrade := decide (p.vercmp > 0),
                     trust_flags := tf })) := by
  refine ⟨?_, ?_, ?_⟩
  · intro e hk hkind
    unfold fu_install_task_check_requirements
    simp only [hpre]
    rw [if_neg hgate]
    simp only [hk]
    rw [if_pos hkind]
    exact ⟨rfl, h0⟩
  · intro e hk hkind
    unfold fu_install_task_check_requirements
    simp only [hpre]
    rw [if_neg hgate]
    simp only [hk]
    rw [if_neg hkind]
  · intro tf hk
    unfold fu_install_task_check_requirements
    simp only [hpre]
    rw [if_neg hgate]
    simp only [hk]

/-- Fixture: an upgrade task (device version shorter than the release
version, so `vercmp_demo` reports an upgrade). -/
def task_up : FuInstallTask :=
  fu_install_task_new { device_demo with version := some "2" }
    { component_demo with releases := [{ version := some "22" }] }

/-- Witness for C5: the soft keyring failure still succeeds with empty
trust flags on a concrete upgrade task. -/
theorem c5_trust_evaluation_witness :
    (fu_install_task_check_requirements env_keyring_notsup task_up
        FWUPD_INSTALL_FLAG_NONE =
      (.ok (), { task_up with is_downgrade := decide ((-1 : Int) > 0) }) ∧
    ({ task_up with is_downgrade := decide ((-1 : Int) > 0) } : FuInstallTask).trust_flags =
      FWUPD_TRUST_FLAG_NONE) ∧
    fu_install_task_check_requirements env_keyring_sig task_up
        FWUPD_INSTALL_FLAG_NONE =
      (.error { kind := .SIGNATURE_INVALID, message := "bad signature" },
       { task_up with is_downgrade := decide ((-1 : Int) > 0) }) ∧
    fu_install_task_check_requirements env_demo task_up FWUPD_INSTALL_FLAG_NONE =
      (.ok (), { task_up with
                   is_downgrade := decide ((-1 : Int) > 0),
                   trust_flags := { metadata := false, payload := true } }) := by
  refine ⟨?_, ?_, ?_⟩
  · exact (c5_trust_evaluation env_keyring_notsup task_up FWUPD_INSTALL_FLAG_NONE
      { version := "2", version_release := "22",
        release := { version := some "22" }, vercmp := -1 }
      rfl (by decide) rfl).1
      { kind := .NOT_SUPPORTED, message := "no GPG support" } rfl rfl
  · exact (c5_trust_evaluation env_keyring_sig task_up FWUPD_INSTALL_FLAG_NONE
      { version := "2", version_release := "22",
        release := { version := some "22" }, vercmp := -1 }
      rfl (by decide) rfl).2.1
      { kind := .SIGNATURE_INVALID, message := "bad signature" } rfl (by decide)
  · exact (c5_trust_evaluation env_demo task_up FWUPD_INSTALL_FLAG_NONE
      { version := "2", version_release := "22",
        release := { version := some "22" }, vercmp := -1 }
      rfl (by decide) rfl).2.2
      { metadata := false, payload := true } rfl
